import Mathlib

/-!
# Verification of the untrusted host application of `sgx_webauthn_authenticator`

A shallow embedding of `src/App/App.cpp` and `src/App/Enclave_u.c`: the
hex codec, the line-reading helper, the launch-token load, the error-message
lookup, the sealed-state OCALLs, the ECALL marshalers and the OCALL table,
together with an abstraction of the `main` pipeline.

C strings and buffers are modelled as `List Nat` of byte values (ASCII);
machine arithmetic that can wrap is modelled with explicit `% 2^w`.
The SGX platform primitives (`sgx_ecall`, `sgx_create_enclave`, the trusted
enclave code) are outside the repository and appear as oracles/parameters.
-/

namespace SgxApp

/-! ## Hex codec (`App.cpp`, `hex2buf`, lines 269-295) -/

/-- Value of one hex digit character, by its ASCII code: `'0'..'9'` are 48..57,
`'a'..'f'` are 97..102, `'A'..'F'` are 65..70; anything else is not a hex
digit. This is the digit set accepted by `sscanf`'s `%x` conversion. -/
def hexDigitVal (c : Nat) : Option Nat :=
  if 48 ≤ c ∧ c ≤ 57 then some (c - 48)
  else if 97 ≤ c ∧ c ≤ 102 then some (c - 97 + 10)
  else if 65 ≤ c ∧ c ≤ 70 then some (c - 65 + 10)
  else none

/-- A lowercase hex digit: `'0'..'9'` or `'a'..'f'`. -/
def isLowerHexDigit (c : Nat) : Bool :=
  (48 ≤ c && c ≤ 57) || (97 ≤ c && c ≤ 102)

/-- A hex digit of either case (the set `sscanf` decodes). -/
def isHexDigit (c : Nat) : Bool := (hexDigitVal c).isSome

/-- One `sscanf(pos, "%2hhx", ...)` step on the two-character window `c1 c2`:
two hex digits give `16*v1+v2`; a single leading hex digit gives its value;
a non-digit first character is a matching failure, so the target byte is not
written (`none` = the freshly `malloc`ed byte stays unspecified). -/
def scanHexPair (c1 c2 : Nat) : Option Nat :=
  match hexDigitVal c1, hexDigitVal c2 with
  | some v1, some v2 => some (16 * v1 + v2)
  | some v1, none => some v1
  | none, _ => none

/-- The decoding loop of `hex2buf`: one output byte per two input characters. -/
def hex2buf_bytes : List Nat → List (Option Nat)
  | c1 :: c2 :: rest => scanHexPair c1 c2 :: hex2buf_bytes rest
  | _ => []

/-- `hex2buf(data_to_sign, &ret)` (`App.cpp` lines 269-295). The input is the
C string's contents (it is never a null pointer in this program, so the
`!data_to_sign` guard is vacuous here). Returns the returned length together
with the allocated output buffer; `none` models the early return on odd
length, where `*ret` is never assigned and nothing is allocated. -/
def hex2buf (data_to_sign : List Nat) : Nat × Option (List (Option Nat)) :=
  let nchars_to_sign := data_to_sign.length
  if nchars_to_sign % 2 ≠ 0 then (0, none)
  else (nchars_to_sign / 2, some (hex2buf_bytes data_to_sign))

/-- Lowercase hex character of a nibble value (`'a'` is 97 = 87 + 10). -/
def hexChar (v : Nat) : Nat := if v < 10 then 48 + v else 87 + v

/-- `w` lowercase hex characters of `n`, most significant nibble first —
the output of `printf("%0wx", n)` for `n < 16^w`. -/
def hexPad : Nat → Nat → List Nat
  | 0, _ => []
  | w + 1, n => hexChar (n / 16 ^ w % 16) :: hexPad w n

/-- Re-encode a decoded buffer, each byte as a two-character lowercase hex
pair (unwritten bytes default to 0; the theorems only use it on fully
written buffers). -/
def bufToHex (bs : List (Option Nat)) : List Nat :=
  (bs.map (fun b => hexPad 2 (b.getD 0))).flatten

/-! ## Line reading (`App.cpp`, `fgets_nonewline`, lines 299-309) -/

/-- The index `str_len` computed by `fgets_nonewline`:
`const uint32_t str_len = strlen(str) - 1;` — the subtraction happens in
`size_t` (64-bit) arithmetic and is then truncated to `uint32_t`. -/
def fgets_trim_index (len : Nat) : Nat :=
  ((len + 2 ^ 64 - 1) % 2 ^ 64) % 2 ^ 32

/-- The trimming step of `fgets_nonewline` applied to a buffer whose C-string
contents are `s` (what `fgets` left there). The function reads
`str[str_len]` and replaces a `'\n'` (byte 10) by a terminator. `none`
models the access falling outside the string and its terminator — an
out-of-bounds read of the buffer. -/
def fgets_nonewline (s : List Nat) : Option (List Nat) :=
  let str_len := fgets_trim_index s.length
  if h : str_len < s.length then
    some (if s.get ⟨str_len, h⟩ = 10 then s.take str_len else s)
  else if str_len = s.length then
    some s
  else
    none

/-! ## Launch token store (`App.cpp`, `initialize_enclave` steps 1, lines 171-206)

`sgx_launch_token_t` is `uint8_t[1024]` in the SGX SDK's `sgx_urts.h`
(an external platform header; only its fixed size matters here). -/

/-- Size in bytes of `sgx_launch_token_t`. -/
def sgx_launch_token_size : Nat := 1024

/-- Observable states of the launch-token file for the load path:
`absent` — `fopen(path, "rb")` fails but `fopen(path, "wb")` creates it
(so the subsequent `fread` on the write-only stream reads 0 bytes);
`unreadable` — both `fopen` calls fail;
`present bytes` — opened for reading with the given contents. -/
inductive TokenFileState
  | absent
  | unreadable
  | present (bytes : List Nat)

/-- The warnings the load path can print. -/
inductive TokenWarning
  | openFailed
  | invalidToken
deriving DecidableEq

/-- The launch-token load of `initialize_enclave` (`App.cpp` lines 171-206):
`token` starts zero-initialized; a successful full `fread` replaces it with
the file contents; a read of some but not all `sizeof(sgx_launch_token_t)`
bytes `memset`s it back to zero and warns `"Invalid launch token"`.
Returns the token passed on to `sgx_create_enclave` and the warnings
printed. -/
def launchTokenLoad : TokenFileState → List Nat × List TokenWarning
  | .unreadable => (List.replicate sgx_launch_token_size 0, [.openFailed])
  | .absent => (List.replicate sgx_launch_token_size 0, [])
  | .present bytes =>
    let read_num := min bytes.length sgx_launch_token_size
    if read_num ≠ 0 ∧ read_num ≠ sgx_launch_token_size then
      (List.replicate sgx_launch_token_size 0, [.invalidToken])
    else if read_num = sgx_launch_token_size then
      (bytes.take sgx_launch_token_size, [])
    else
      (List.replicate sgx_launch_token_size 0, [])

/-! ## Error reporting (`App.cpp`, `sgx_errlist` lines 67-143 and
`print_error_message` lines 146-162)

The numeric values of `sgx_status_t` come from the SDK's `sgx_error.h`
(external platform header); only their pairwise distinctness is load-bearing
for the lookup logic. `SGX_SUCCESS = 0`. -/

def SGX_ERROR_UNEXPECTED : Nat := 0x0001
def SGX_ERROR_INVALID_PARAMETER : Nat := 0x0002
def SGX_ERROR_OUT_OF_MEMORY : Nat := 0x0003
def SGX_ERROR_ENCLAVE_LOST : Nat := 0x0004
def SGX_ERROR_INVALID_ENCLAVE : Nat := 0x2001
def SGX_ERROR_INVALID_ENCLAVE_ID : Nat := 0x2002
def SGX_ERROR_INVALID_SIGNATURE : Nat := 0x2003
def SGX_ERROR_OUT_OF_EPC : Nat := 0x2005
def SGX_ERROR_NO_DEVICE : Nat := 0x2006
def SGX_ERROR_MEMORY_MAP_CONFLICT : Nat := 0x2007
def SGX_ERROR_INVALID_METADATA : Nat := 0x2009
def SGX_ERROR_DEVICE_BUSY : Nat := 0x200c
def SGX_ERROR_INVALID_VERSION : Nat := 0x200d
def SGX_ERROR_ENCLAVE_FILE_ACCESS : Nat := 0x200f
def SGX_ERROR_INVALID_ATTRIBUTE : Nat := 0x3002

/-- One row of the static error table: status code, message, optional
suggestion (`NULL` = `none`). -/
structure sgx_errlist_t where
  err : Nat
  msg : String
  sug : Option String
deriving DecidableEq

/-- The static error lookup table (`App.cpp` lines 67-143), in declaration
order. -/
def sgx_errlist : List sgx_errlist_t :=
  [⟨SGX_ERROR_UNEXPECTED, "Unexpected error occurred.", none⟩,
   ⟨SGX_ERROR_INVALID_PARAMETER, "Invalid parameter.", none⟩,
   ⟨SGX_ERROR_OUT_OF_MEMORY, "Out of memory.", none⟩,
   ⟨SGX_ERROR_ENCLAVE_LOST, "Power transition occurred.",
    some "Please refer to the sample \"PowerTransition\" for details."⟩,
   ⟨SGX_ERROR_INVALID_ENCLAVE, "Invalid enclave image.", none⟩,
   ⟨SGX_ERROR_INVALID_ENCLAVE_ID, "Invalid enclave identification.", none⟩,
   ⟨SGX_ERROR_INVALID_SIGNATURE, "Invalid enclave signature.", none⟩,
   ⟨SGX_ERROR_OUT_OF_EPC, "Out of EPC memory.", none⟩,
   ⟨SGX_ERROR_NO_DEVICE, "Invalid SGX device.",
    some "Please make sure SGX module is enabled in the BIOS, and install SGX driver afterwards."⟩,
   ⟨SGX_ERROR_MEMORY_MAP_CONFLICT, "Memory map conflicted.", none⟩,
   ⟨SGX_ERROR_INVALID_METADATA, "Invalid enclave metadata.", none⟩,
   ⟨SGX_ERROR_DEVICE_BUSY, "SGX device was busy.", none⟩,
   ⟨SGX_ERROR_INVALID_VERSION, "Enclave version was invalid.", none⟩,
   ⟨SGX_ERROR_INVALID_ATTRIBUTE, "Enclave was not authorized.", none⟩,
   ⟨SGX_ERROR_ENCLAVE_FILE_ACCESS, "Can't open enclave file.", none⟩]

/-- Uppercase hex character of a nibble (`'A'` is 65 = 55 + 10), as printed
by `printf("%X", ...)`. -/
def hexCharUpper (v : Nat) : Char :=
  if v < 10 then Char.ofNat (48 + v) else Char.ofNat (55 + v)

/-- Digit loop of `toHexUpper`; the fuel only bounds the recursion depth
(one hex digit per step, so any fuel above `n` is enough). -/
def toHexUpperAux : Nat → Nat → List Char
  | 0, _ => []
  | fuel + 1, n =>
    if n < 16 then [hexCharUpper n]
    else toHexUpperAux fuel (n / 16) ++ [hexCharUpper (n % 16)]

/-- `printf("%X", n)`: uppercase hex rendering of `n`, no leading zeros. -/
def toHexUpper (n : Nat) : String :=
  String.mk (toHexUpperAux (n + 1) n)

/-- `print_error_message(ret)` (`App.cpp` lines 146-162): scan the table
for the first row whose code equals `ret`; print `Info:` with the suggestion
when present, then `Error:` with the message, and stop. If the scan falls
off the end, print the raw code in hex with a pointer to the vendor manual.
Returns the lines printed; the function changes nothing else. -/
def print_error_message (ret : Nat) : List String :=
  match sgx_errlist.find? (fun e => e.err == ret) with
  | some e =>
    (match e.sug with
     | some s => ["Info: " ++ s]
     | none => []) ++ ["Error: " ++ e.msg]
  | none =>
    ["Error code is 0x" ++ toHexUpper ret ++
     ". Please refer to the \"Intel SGX SDK Developer Reference\" for more details."]

/-! ## Sealed-state persistence (`App.cpp`, lines 248-267) -/

/-- The host-side view of `enclave_data.seal`: whether each open mode
succeeds, and the file's current contents. -/
structure SealedFile where
  canOpenWrite : Bool
  canOpenRead : Bool
  contents : List Nat

/-- `untrusted_save_enclave_data(sealed_data, sealed_size)` (`App.cpp` lines
248-257): open for writing (truncating); return 1 if that fails, otherwise
write `sealed_size` bytes from the buffer and return 0 — the write itself is
never error-checked. Returns the code and the file afterwards. -/
def untrusted_save_enclave_data (fs : SealedFile) (sealed_data : List Nat)
    (sealed_size : Nat) : Int × SealedFile :=
  if !fs.canOpenWrite then (1, fs)
  else (0, { fs with contents := sealed_data.take sealed_size })

/-- `untrusted_load_enclave_data(sealed_data, sealed_size)` (`App.cpp` lines
259-267): open for reading; return 1 if that fails, otherwise `read` up to
`sealed_size` bytes into the buffer (a short file leaves the buffer's tail
untouched) and return 0 — a short read is not detected. Returns the code
and the buffer afterwards. -/
def untrusted_load_enclave_data (fs : SealedFile) (sealed_data : List Nat)
    (sealed_size : Nat) : Int × List Nat :=
  if !fs.canOpenRead then (1, sealed_data)
  else
    let got := fs.contents.take sealed_size
    (0, got ++ sealed_data.drop got.length)

/-! ## Callback dispatcher (`Enclave_u.c`, `ocall_table_Enclave`,
lines 56-66) -/

/-- The untrusted capabilities a dispatch entry can point at. `readLine`
(`untrusted_get_user_input` in `App.cpp`) exists as a host function but, as
the table below shows, has no OCALL entry. -/
inductive HostCapability
  | printString
  | saveSealedState
  | loadSealedState
  | readLine
deriving DecidableEq

/-- `ocall_table_Enclave.table` (`Enclave_u.c` lines 56-66): the function
pointers `Enclave_untrusted_print_string`,
`Enclave_untrusted_save_enclave_data`,
`Enclave_untrusted_load_enclave_data`, in array order. -/
def ocall_table_Enclave : List HostCapability :=
  [.printString, .saveSealedState, .loadSealedState]

/-- `ocall_table_Enclave.nr_ocall`. -/
def nr_ocall : Nat := 3

/-- Dispatch of an incoming OCALL index: the entry at that fixed position of
the table, if any. -/
def ocallDispatch (index : Nat) : Option HostCapability :=
  ocall_table_Enclave[index]?

/-! ## Call marshaler (`Enclave_u.c`, `get_public_key` lines 67-75 and
`sign_data` lines 77-87)

`sgx_ecall` is the platform primitive, outside the repository; it is a
parameter here. `SGX_SUCCESS = 0`. -/

/-- What an `sgx_ecall` invocation leaves behind, as far as the marshalers
read it: the platform status `sgx_ecall` returns, and the `ms_retval` field
of the parameter block as the trusted side left it. -/
structure EcallResult where
  status : Nat
  ms_retval : Nat

/-- The marshaled input blocks: `ms_get_public_key_t` carries no inputs
(`ms_ret_pk` is an output pointer); `ms_sign_data_t` carries `ms_data` and
`ms_data_size`. -/
inductive EcallBlock
  | getPublicKey
  | signData (data : List Nat) (data_size : Nat)

/-- The type of the `sgx_ecall` platform primitive as the marshalers use it:
enclave id, call index, populated parameter block. -/
def SgxEcall := Nat → Nat → EcallBlock → EcallResult

/-- `get_public_key(eid, retval, ret_pk)` (`Enclave_u.c` lines 67-75):
invoke `sgx_ecall` at index 0; if the status is `SGX_SUCCESS` and `retval`
is non-null, copy the block's `ms_retval` into it. The `retval` location is
`none` for a null pointer, `some v` for a location holding `v`. Returns the
status returned verbatim and the location's final state. -/
def get_public_key (sgx_ecall : SgxEcall) (eid : Nat) (retval : Option Nat) :
    Nat × Option Nat :=
  let r := sgx_ecall eid 0 .getPublicKey
  (r.status, if r.status = 0 ∧ retval.isSome then some r.ms_retval else retval)

/-- `sign_data(eid, retval, data, data_size, ret_signature)` (`Enclave_u.c`
lines 77-87): populate the block with `data`/`data_size`, invoke `sgx_ecall`
at index 1, and treat `retval` exactly as `get_public_key` does. -/
def sign_data (sgx_ecall : SgxEcall) (eid : Nat) (retval : Option Nat)
    (data : List Nat) (data_size : Nat) : Nat × Option Nat :=
  let r := sgx_ecall eid 1 (.signData data data_size)
  (r.status, if r.status = 0 ∧ retval.isSome then some r.ms_retval else retval)

/-! ## The `main` pipeline (`App.cpp`, lines 312-420)

The enclave's observable behaviour in one run of `main` — the status each
trusted call stores through its `retval` pointer and the key/signature
structures it writes — is abstracted as an oracle. `SGX_ECP256_KEY_SIZE`
is 32 (bytes), `SGX_NISTP_ECP256_KEY_SIZE` is 8 (32-bit limbs), from the
SDK's `sgx_tcrypto.h`. -/

def SGX_ECP256_KEY_SIZE : Nat := 32

def SGX_NISTP_ECP256_KEY_SIZE : Nat := 8

/-- What the trusted side does in this run: the `retval` statuses and the
structures written through the output pointers. `gx`/`gy` are the byte
arrays of `sgx_ec256_public_t`, `sigx`/`sigy` the `uint32_t` limb arrays of
`sgx_ec256_signature_t`, all in the little-endian order they are stored
in. -/
structure EnclaveOracle where
  pkStatus : Nat
  gx : List Nat
  gy : List Nat
  signStatus : Nat
  sigx : List Nat
  sigy : List Nat

/-- The hex field `main` prints for a byte array: the loop
`for (i = SIZE-1; i >= 0; i--) printf("%02x", a[i]);` — bytes reversed out
of little-endian storage, two lowercase hex characters each. -/
def hexByteField (a : List Nat) : List Nat :=
  (a.reverse.map (hexPad 2)).flatten

/-- The hex field `main` prints for a `uint32_t` limb array:
`for (i = SIZE-1; i >= 0; i--) printf("%08x", a[i]);`. -/
def hexLimbField (a : List Nat) : List Nat :=
  (a.reverse.map (hexPad 8)).flatten

/-- The outcome of one run of `main` past enclave initialization: the exit
code, whether the signing ECALL was reached, the `gx`/`gy` hex fields
printed for the public key, the two comma-separated signature hex fields,
and the error line printed, if any. -/
structure MainResult where
  exitCode : Int
  signingInvoked : Bool
  pkPrinted : Option (List Nat × List Nat)
  sigPrinted : Option (List Nat × List Nat)
  errorMsg : Option String

/-- `main` (`App.cpp` lines 312-420) after a successful
`initialize_enclave`, as a function of the enclave oracle and the two lines
read from stdin (`client_data_json` is passed through to the signing call
opaquely and affects nothing the claims observe). In order: the
`get_public_key` ECALL with its status check, printing the public key,
reading both input lines, `hex2buf` with its zero-length check, the signing
ECALL with its status check, and printing the signature. -/
def mainRun (o : EnclaveOracle) (client_data_json : List Nat)
    (data_to_sign : List Nat) : MainResult :=
  if o.pkStatus ≠ 0 then
    ⟨-1, false, none, none, some "App Error"⟩
  else
    let pk := some (hexByteField o.gx, hexByteField o.gy)
    let nbytes_to_sign := (hex2buf data_to_sign).1
    if nbytes_to_sign = 0 then
      ⟨-1, false, pk, none, some "Error receiving data to sign!"⟩
    else if o.signStatus ≠ 0 then
      ⟨-1, true, pk, none, some "Signature Error"⟩
    else
      ⟨0, true, pk, some (hexLimbField o.sigx, hexLimbField o.sigy), none⟩

/-! ## Concrete inputs used by the end-to-end runs -/

/-- A functioning enclave for concrete runs: both trusted calls report
status 0 and write all-zero key bytes and signature limbs of the platform
sizes. -/
def oracle0 : EnclaveOracle :=
  ⟨0, List.replicate 32 0, List.replicate 32 0, 0,
   List.replicate 8 0, List.replicate 8 0⟩

/-- ASCII bytes of the client-data stdin line of the end-to-end scenario,
`\x7b"origin":"example"\x7d`. -/
def json0 : List Nat :=
  [123, 34, 111, 114, 105, 103, 105, 110, 34, 58, 34,
   101, 120, 97, 109, 112, 108, 101, 34, 125]

/-- ASCII bytes of the hex stdin line `0102030a` of the end-to-end
scenario. -/
def hexline0 : List Nat := [48, 49, 48, 50, 48, 51, 48, 97]

/-- An `sgx_ecall` that succeeds with `ms_retval = 7`. -/
def ecallOk : SgxEcall := fun _ _ _ => ⟨0, 7⟩

/-- An `sgx_ecall` that fails with platform status 3, leaving
`ms_retval = 7` in the block. -/
def ecallFail : SgxEcall := fun _ _ _ => ⟨3, 7⟩

end SgxApp

namespace SgxApp

/-! ## Helper lemmas -/

/-- `hexPad` always emits exactly its width. -/
theorem hexPad_length : ∀ (w n : Nat), (hexPad w n).length = w
  | 0, _ => rfl
  | w + 1, n => by simp [hexPad, hexPad_length w n]

/-- Flattening a map whose pieces all have length `w` multiplies the
length by `w`. -/
theorem flatten_map_length_const {α : Type} (f : α → List Nat) (w : Nat)
    (hf : ∀ x, (f x).length = w) :
    ∀ l : List α, ((l.map f).flatten).length = w * l.length
  | [] => by simp
  | x :: xs => by
    simp [flatten_map_length_const f w hf xs, hf x, Nat.mul_succ, Nat.add_comm]

/-- A lowercase hex digit decodes to a nibble that `hexChar` encodes back
to the same character. -/
theorem hexDigitVal_lower (c : Nat) (h : isLowerHexDigit c = true) :
    ∃ v, hexDigitVal c = some v ∧ v < 16 ∧ hexChar v = c := by
  simp only [isLowerHexDigit, Bool.or_eq_true, Bool.and_eq_true,
    decide_eq_true_eq] at h
  rcases h with ⟨a, b⟩ | ⟨a, b⟩
  · refine ⟨c - 48, ?_, by omega, ?_⟩
    · unfold hexDigitVal
      rw [if_pos ⟨a, b⟩]
    · unfold hexChar
      rw [if_pos (by omega : c - 48 < 10)]
      omega
  · refine ⟨c - 97 + 10, ?_, by omega, ?_⟩
    · unfold hexDigitVal
      rw [if_neg (by omega), if_pos ⟨a, b⟩]
    · unfold hexChar
      rw [if_neg (by omega)]
      omega

/-- Decoding two lowercase hex digits and re-encoding the byte gives the
same two characters back. -/
theorem hexPad_two_scan (c1 c2 : Nat) (h1 : isLowerHexDigit c1 = true)
    (h2 : isLowerHexDigit c2 = true) :
    hexPad 2 ((scanHexPair c1 c2).getD 0) = [c1, c2] := by
  obtain ⟨v1, e1, lt1, hc1⟩ := hexDigitVal_lower c1 h1
  obtain ⟨v2, e2, lt2, hc2⟩ := hexDigitVal_lower c2 h2
  have hs : scanHexPair c1 c2 = some (16 * v1 + v2) := by
    simp [scanHexPair, e1, e2]
  rw [hs]
  simp only [Option.getD_some, hexPad, pow_one, pow_zero, Nat.div_one]
  have e3 : (16 * v1 + v2) / 16 % 16 = v1 := by omega
  have e4 : (16 * v1 + v2) % 16 = v2 := by omega
  rw [e3, e4, hc1, hc2]

/-- The decode loop of `hex2buf` followed by lowercase re-encoding is the
identity on even-length lowercase hex strings. -/
theorem bufToHex_hex2buf_bytes : ∀ (s : List Nat),
    (∀ c ∈ s, isLowerHexDigit c = true) → s.length % 2 = 0 →
    bufToHex (hex2buf_bytes s) = s
  | [], _, _ => rfl
  | [_c], _, heven => by simp at heven
  | c1 :: c2 :: rest, hhex, heven => by
    have h1 := hhex c1 (by simp)
    have h2 := hhex c2 (by simp)
    have ih := bufToHex_hex2buf_bytes rest
      (fun c hc => hhex c (by simp [hc]))
      (by simp only [List.length_cons] at heven; omega)
    simp only [hex2buf_bytes, bufToHex, List.map_cons, List.flatten_cons] at ih ⊢
    rw [ih, hexPad_two_scan c1 c2 h1 h2]
    rfl

/-! ## The claims -/

/-- C1: `fgets_nonewline` strips the trailing newline from `"hello\n"`, but
on an empty buffer the trim index `strlen(str) - 1` wraps around to
`2^32 - 1`, an out-of-bounds read — the trim check does underflow. -/
theorem fgets_nonewline_trim_underflow :
    fgets_nonewline [104, 101, 108, 108, 111, 10] = some [104, 101, 108, 108, 111] ∧
    fgets_trim_index 0 = 2 ^ 32 - 1 ∧
    fgets_nonewline [] = none := by decide

/-- C2 counterexample: the OCALL table has three entries, not four, and the
read-line capability is not among them. -/
theorem ocall_table_not_four :
    ocall_table_Enclave.length = 3 ∧
    HostCapability.readLine ∉ ocall_table_Enclave ∧
    (3 : Nat) ≠ 4 := by decide

/-- C2 (amended): the OCALL table contains exactly the three capabilities
print-string, save-sealed-state and load-sealed-state, each at a fixed
index fixed in the static initializer; every index below `nr_ocall`
dispatches to exactly one of them and every other index to none. -/
theorem ocall_table_exactly_three :
    nr_ocall = 3 ∧ ocall_table_Enclave.length = nr_ocall ∧
    ocallDispatch 0 = some HostCapability.printString ∧
    ocallDispatch 1 = some HostCapability.saveSealedState ∧
    ocallDispatch 2 = some HostCapability.loadSealedState ∧
    (∀ i, i < nr_ocall → ∃ c, ocallDispatch i = some c) ∧
    (∀ i, nr_ocall ≤ i → ocallDispatch i = none) := by
  refine ⟨rfl, rfl, rfl, rfl, rfl, ?_, ?_⟩
  · intro i hi
    simp only [nr_ocall] at hi
    interval_cases i <;> exact ⟨_, rfl⟩
  · intro i hi
    simp only [nr_ocall] at hi
    simp [ocallDispatch, ocall_table_Enclave, List.getElem?_eq_none, hi]

/-- C2 witness: index 1 dispatches somewhere, index 5 nowhere. -/
theorem ocall_table_exactly_three_witness :
    (∃ c, ocallDispatch 1 = some c) ∧ ocallDispatch 5 = none :=
  ⟨ocall_table_exactly_three.2.2.2.2.2.1 1 (by decide),
   ocall_table_exactly_three.2.2.2.2.2.2 5 (by decide)⟩

/-- C3 counterexample: `"AB"` is an even-length hex string; `hex2buf`
decodes it to the byte 171 and lowercase re-encoding gives `"ab"`, not
`"AB"`. -/
theorem hex2buf_uppercase_roundtrip_fails :
    ([65, 66] : List Nat).length % 2 = 0 ∧
    isHexDigit 65 = true ∧ isHexDigit 66 = true ∧
    hex2buf [65, 66] = (1, some [some 171]) ∧
    bufToHex [some 171] = [97, 98] ∧
    ¬ (([97, 98] : List Nat) = [65, 66]) := by decide

/-- C3 (amended): for every even-length string of lowercase hex digits,
`hex2buf` decodes every pair and re-encoding each output byte as a
two-character lowercase hex pair reproduces the original string; strings
containing uppercase digits decode to the same bytes but re-encode to the
lowercase form instead. -/
theorem hex2buf_lowercase_roundtrip (s : List Nat)
    (hhex : ∀ c ∈ s, isLowerHexDigit c = true) (heven : s.length % 2 = 0) :
    hex2buf s = (s.length / 2, some (hex2buf_bytes s)) ∧
    bufToHex (hex2buf_bytes s) = s := by
  constructor
  · simp [hex2buf, heven]
  · exact bufToHex_hex2buf_bytes s hhex heven

/-- C3 witness: the roundtrip at the concrete lowercase string
`"0102030a"`. -/
theorem hex2buf_lowercase_roundtrip_witness :
    hex2buf hexline0 = (hexline0.length / 2, some (hex2buf_bytes hexline0)) ∧
    bufToHex (hex2buf_bytes hexline0) = hexline0 :=
  hex2buf_lowercase_roundtrip hexline0 (by decide) (by decide)

/-- C4: an odd-length input makes `hex2buf` return length 0 with no
allocation, and makes `main` print an error and exit `-1` with the signing
call never reached, whatever the enclave would have done. -/
theorem hex2buf_odd_rejected (s : List Nat) (o : EnclaveOracle)
    (json : List Nat) (hodd : s.length % 2 = 1) :
    hex2buf s = (0, none) ∧
    (mainRun o json s).exitCode = -1 ∧
    (mainRun o json s).signingInvoked = false ∧
    (mainRun o json s).errorMsg ≠ none := by
  have h2 : hex2buf s = (0, none) := by simp [hex2buf, hodd]
  refine ⟨h2, ?_⟩
  by_cases hpk : o.pkStatus = 0 <;> simp [mainRun, hpk, h2]

/-- C4 witness: the odd-length input `"abc"` with a functioning enclave. -/
theorem hex2buf_odd_rejected_witness :
    hex2buf [97, 98, 99] = (0, none) ∧
    (mainRun oracle0 json0 [97, 98, 99]).exitCode = -1 ∧
    (mainRun oracle0 json0 [97, 98, 99]).signingInvoked = false ∧
    (mainRun oracle0 json0 [97, 98, 99]).errorMsg ≠ none :=
  hex2buf_odd_rejected [97, 98, 99] oracle0 json0 (by decide)

/-- C5 counterexample: a zero-byte token file contains fewer bytes than the
token size, yet the load prints no warning at all (the `read_num != 0`
guard skips the `memset`-and-warn branch). -/
theorem launch_token_empty_file_no_warning :
    ([] : List Nat).length < sgx_launch_token_size ∧
    (launchTokenLoad (.present [])).1 = List.replicate sgx_launch_token_size 0 ∧
    (launchTokenLoad (.present [])).2 = [] := by
  refine ⟨by decide, rfl, rfl⟩

/-- C5 (amended): an absent, unreadable or too-short token file always
yields the all-zero token, never a partial one; the invalid-token warning
is logged exactly in the short-read cases that read at least one byte — a
zero-byte file yields the zero token silently. -/
theorem launch_token_load_zeroes (bytes : List Nat) :
    (launchTokenLoad .absent).1 = List.replicate sgx_launch_token_size 0 ∧
    (launchTokenLoad .unreadable).1 = List.replicate sgx_launch_token_size 0 ∧
    (bytes.length < sgx_launch_token_size →
      (launchTokenLoad (.present bytes)).1 = List.replicate sgx_launch_token_size 0) ∧
    (0 < bytes.length → bytes.length < sgx_launch_token_size →
      (launchTokenLoad (.present bytes)).2 = [TokenWarning.invalidToken]) := by
  refine ⟨rfl, rfl, ?_, ?_⟩
  · intro h
    simp only [launchTokenLoad]
    split_ifs with h1 h2
    · rfl
    · exfalso
      simp only [sgx_launch_token_size] at h h2
      omega
    · rfl
  · intro h0 h1
    have hcond : min bytes.length sgx_launch_token_size ≠ 0 ∧
        min bytes.length sgx_launch_token_size ≠ sgx_launch_token_size := by
      simp only [sgx_launch_token_size] at h0 h1 ⊢
      omega
    simp [launchTokenLoad, hcond]

/-- C5 witness: a one-byte token file yields the zero token and the
invalid-token warning. -/
theorem launch_token_load_zeroes_witness :
    (launchTokenLoad (.present [7])).1 = List.replicate sgx_launch_token_size 0 ∧
    (launchTokenLoad (.present [7])).2 = [TokenWarning.invalidToken] :=
  ⟨(launch_token_load_zeroes [7]).2.2.1 (by decide),
   (launch_token_load_zeroes [7]).2.2.2 (by decide) (by decide)⟩

/-- C6: each marshaler enters the enclave at its fixed index — 0 for
`get_public_key`, 1 for `sign_data` (the result depends only on what
`sgx_ecall` does at that index and block) — returns the platform status
verbatim, and on `SGX_SUCCESS` copies the block's `ms_retval` field into
the caller's output parameter. -/
theorem marshaler_fixed_index_and_retval (ec : SgxEcall) (eid v : Nat)
    (data : List Nat) (n : Nat) :
    (get_public_key ec eid (some v)).1 = (ec eid 0 .getPublicKey).status ∧
    ((ec eid 0 .getPublicKey).status = 0 →
      (get_public_key ec eid (some v)).2 = some (ec eid 0 .getPublicKey).ms_retval) ∧
    (sign_data ec eid (some v) data n).1 = (ec eid 1 (.signData data n)).status ∧
    ((ec eid 1 (.signData data n)).status = 0 →
      (sign_data ec eid (some v) data n).2 = some (ec eid 1 (.signData data n)).ms_retval) ∧
    (∀ ec' : SgxEcall, ec' eid 0 .getPublicKey = ec eid 0 .getPublicKey →
      get_public_key ec' eid (some v) = get_public_key ec eid (some v)) ∧
    (∀ ec' : SgxEcall, ec' eid 1 (.signData data n) = ec eid 1 (.signData data n) →
      sign_data ec' eid (some v) data n = sign_data ec eid (some v) data n) := by
  refine ⟨rfl, ?_, rfl, ?_, ?_, ?_⟩
  · intro h
    simp [get_public_key, h]
  · intro h
    simp [sign_data, h]
  · intro ec' h
    simp [get_public_key, h]
  · intro ec' h
    simp [sign_data, h]

/-- C6 witness: a succeeding `sgx_ecall` leaving `ms_retval = 7` makes both
marshalers store 7 in the caller's status location. -/
theorem marshaler_fixed_index_and_retval_witness :
    (get_public_key ecallOk 1 (some 5)).2 = some 7 ∧
    (sign_data ecallOk 1 (some 5) [1] 1).2 = some 7 :=
  ⟨(marshaler_fixed_index_and_retval ecallOk 1 5 [1] 1).2.1 rfl,
   (marshaler_fixed_index_and_retval ecallOk 1 5 [1] 1).2.2.2.1 rfl⟩

/-- C7: `print_error_message` prints the mapped message — preceded by the
`Info:` suggestion when one is present — for every code in the static
table, and the raw numeric code with a pointer to the vendor reference for
every code not in it; it only returns the printed lines, altering no other
state. -/
theorem print_error_message_lookup (ret : Nat) :
    (∀ e ∈ sgx_errlist, e.err = ret →
      print_error_message ret =
        (match e.sug with
         | some s => ["Info: " ++ s]
         | none => []) ++ ["Error: " ++ e.msg]) ∧
    ((∀ e ∈ sgx_errlist, e.err ≠ ret) →
      print_error_message ret =
        ["Error code is 0x" ++ toHexUpper ret ++
         ". Please refer to the \"Intel SGX SDK Developer Reference\" for more details."]) := by
  constructor
  · intro e he heq
    fin_cases he <;> (subst heq; decide)
  · intro h
    have hf : sgx_errlist.find? (fun e => e.err == ret) = none := by
      rw [List.find?_eq_none]
      intro e he
      simpa using h e he
    simp [print_error_message, hf]

/-- C7 witness: the mapped message for `SGX_ERROR_NO_DEVICE` (which carries
a suggestion) and the generic line for the absent code `0x9999`. -/
theorem print_error_message_lookup_witness :
    print_error_message 0x2006 =
      ["Info: Please make sure SGX module is enabled in the BIOS, and install SGX driver afterwards.",
       "Error: Invalid SGX device."] ∧
    print_error_message 0x9999 =
      ["Error code is 0x9999. Please refer to the \"Intel SGX SDK Developer Reference\" for more details."] :=
  ⟨(print_error_message_lookup 0x2006).1
      ⟨SGX_ERROR_NO_DEVICE, "Invalid SGX device.",
       some "Please make sure SGX module is enabled in the BIOS, and install SGX driver afterwards."⟩
      (by decide) rfl,
   (print_error_message_lookup 0x9999).2 (by decide)⟩

/-- C8: `untrusted_save_enclave_data` returns 0 exactly when the sealed
file opens for writing (1 otherwise, leaving the file untouched);
`untrusted_load_enclave_data` returns 0 exactly when it opens for reading;
a short read still returns 0, indistinguishable from success. -/
theorem sealed_state_return_codes (fs : SealedFile) (data buf : List Nat)
    (n : Nat) :
    ((untrusted_save_enclave_data fs data n).1 = 0 ↔ fs.canOpenWrite = true) ∧
    (fs.canOpenWrite = false →
      untrusted_save_enclave_data fs data n = (1, fs)) ∧
    ((untrusted_load_enclave_data fs buf n).1 = 0 ↔ fs.canOpenRead = true) ∧
    (fs.canOpenRead = true → fs.contents.length < n →
      (untrusted_load_enclave_data fs buf n).1 = 0) := by
  refine ⟨?_, ?_, ?_, ?_⟩
  · cases hw : fs.canOpenWrite <;> simp [untrusted_save_enclave_data, hw]
  · intro hw
    simp [untrusted_save_enclave_data, hw]
  · cases hr : fs.canOpenRead <;> simp [untrusted_load_enclave_data, hr]
  · intro hr _
    simp [untrusted_load_enclave_data, hr]

/-- C8 witness: reading 3 bytes from a 2-byte file still returns 0, and a
write-locked file makes save return 1. -/
theorem sealed_state_return_codes_witness :
    (untrusted_load_enclave_data ⟨true, true, [1, 2]⟩ [0, 0, 0] 3).1 = 0 ∧
    untrusted_save_enclave_data ⟨false, true, [1, 2]⟩ [9] 1 = (1, ⟨false, true, [1, 2]⟩) :=
  ⟨(sealed_state_return_codes ⟨true, true, [1, 2]⟩ [9] [0, 0, 0] 3).2.2.2 rfl (by decide),
   (sealed_state_return_codes ⟨false, true, [1, 2]⟩ [9] [0, 0, 0] 1).2.1 rfl⟩

/-- C9 counterexample: with a functioning enclave and the scenario's stdin
lines, `main` exits 0 and prints 64-character `gx`/`gy` fields, but the two
comma-separated signature fields are 64 hex characters each (8 limbs of 8),
not 256. -/
theorem main_signature_fields_are_64 :
    (mainRun oracle0 json0 hexline0).exitCode = 0 ∧
    ((mainRun oracle0 json0 hexline0).pkPrinted.map
      fun p => (p.1.length, p.2.length)) = some (64, 64) ∧
    ((mainRun oracle0 json0 hexline0).sigPrinted.map
      fun p => (p.1.length, p.2.length)) = some (64, 64) ∧
    (64 : Nat) ≠ 256 := by decide

/-- C9 (amended): with a functioning enclave and any nonempty even-length
hex line, `main` exits 0, prints the public key as 64-hex-character `gx`
and `gy` fields (bytes emitted most-significant-first, reversed from
little-endian storage), and the signature as two 64-hex-character fields
(limbs reversed the same way) separated by a comma — 64, not 256, per
field. -/
theorem main_success_output (o : EnclaveOracle) (json s : List Nat)
    (hpk : o.pkStatus = 0) (hsig : o.signStatus = 0)
    (hgx : o.gx.length = SGX_ECP256_KEY_SIZE)
    (hgy : o.gy.length = SGX_ECP256_KEY_SIZE)
    (hsx : o.sigx.length = SGX_NISTP_ECP256_KEY_SIZE)
    (hsy : o.sigy.length = SGX_NISTP_ECP256_KEY_SIZE)
    (hne : s ≠ []) (heven : s.length % 2 = 0) :
    (mainRun o json s).exitCode = 0 ∧
    (mainRun o json s).pkPrinted = some (hexByteField o.gx, hexByteField o.gy) ∧
    (hexByteField o.gx).length = 64 ∧ (hexByteField o.gy).length = 64 ∧
    (mainRun o json s).sigPrinted = some (hexLimbField o.sigx, hexLimbField o.sigy) ∧
    (hexLimbField o.sigx).length = 64 ∧ (hexLimbField o.sigy).length = 64 := by
  have h1 : (hex2buf s).1 = s.length / 2 := by
    simp [hex2buf, heven]
  have hnb : (hex2buf s).1 ≠ 0 := by
    have hlen : s.length ≠ 0 := fun h => hne (List.eq_nil_of_length_eq_zero h)
    rw [h1]
    omega
  have hby : ∀ a : List Nat, (hexByteField a).length = 2 * a.length := by
    intro a
    unfold hexByteField
    rw [flatten_map_length_const (hexPad 2) 2 (hexPad_length 2)]
    simp
  have hlb : ∀ a : List Nat, (hexLimbField a).length = 8 * a.length := by
    intro a
    unfold hexLimbField
    rw [flatten_map_length_const (hexPad 8) 8 (hexPad_length 8)]
    simp
  refine ⟨?_, ?_, ?_, ?_, ?_, ?_, ?_⟩ <;>
    simp [mainRun, hpk, hsig, hnb, hby, hlb, hgx, hgy, hsx, hsy,
      SGX_ECP256_KEY_SIZE, SGX_NISTP_ECP256_KEY_SIZE]

/-- C9 witness: the scenario's concrete inputs against the functioning
all-zero enclave. -/
theorem main_success_output_witness :
    (mainRun oracle0 json0 hexline0).exitCode = 0 ∧
    (mainRun oracle0 json0 hexline0).pkPrinted =
      some (hexByteField oracle0.gx, hexByteField oracle0.gy) ∧
    (hexByteField oracle0.gx).length = 64 ∧ (hexByteField oracle0.gy).length = 64 ∧
    (mainRun oracle0 json0 hexline0).sigPrinted =
      some (hexLimbField oracle0.sigx, hexLimbField oracle0.sigy) ∧
    (hexLimbField oracle0.sigx).length = 64 ∧ (hexLimbField oracle0.sigy).length = 64 :=
  main_success_output oracle0 json0 hexline0 rfl rfl (by decide) (by decide)
    (by decide) (by decide) (by decide) (by decide)

/-- C10: if `sgx_ecall` reports a non-success status, neither marshaler
touches the caller's `retval` location; a null location is never written
either. -/
theorem marshaler_retval_frame (ec : SgxEcall) (eid : Nat)
    (retval : Option Nat) (data : List Nat) (n : Nat) :
    ((ec eid 0 .getPublicKey).status ≠ 0 →
      (get_public_key ec eid retval).2 = retval) ∧
    ((ec eid 1 (.signData data n)).status ≠ 0 →
      (sign_data ec eid retval data n).2 = retval) ∧
    (get_public_key ec eid none).2 = none ∧
    (sign_data ec eid none data n).2 = none := by
  refine ⟨?_, ?_, ?_, ?_⟩
  · intro h
    simp [get_public_key, h]
  · intro h
    simp [sign_data, h]
  · simp [get_public_key]
  · simp [sign_data]

/-- C10 witness: a failing `sgx_ecall` (status 3) leaves the caller's
location holding its old value 5 in both marshalers. -/
theorem marshaler_retval_frame_witness :
    (get_public_key ecallFail 1 (some 5)).2 = some 5 ∧
    (sign_data ecallFail 1 (some 5) [1] 1).2 = some 5 :=
  ⟨(marshaler_retval_frame ecallFail 1 (some 5) [1] 1).1 (by decide),
   (marshaler_retval_frame ecallFail 1 (some 5) [1] 1).2.1 (by decide)⟩

end SgxApp
